import Mathlib

/-!
Verification of the lead-genius backend's post-interaction scoring pipeline.

Shallow embedding of the Python source:
* `backend/services/ai_analysis_service.py` — LLM-backed profile/post
  classification with a keyword fallback;
* `backend/api/apify.py` and `backend/api/analysis.py` — webhook handlers,
  batch-analysis trigger and the results endpoint;
* `backend/repositories/campaign_repo.py` — campaign status transitions;
* the per-item upsert persistence step of the pipeline.

External effects (the OpenAI client together with the network call and JSON
parsing of its response, UUID parsing, the analysis service invoked by the
trigger endpoint) are modelled as explicit function parameters; database
tables are modelled as Lean lists and queries as filters over them.
-/

namespace LeadGenius

/-- Python's `needle in hay` on strings: substring containment. -/
def strContains (hay needle : String) : Bool := decide (needle.data <:+: hay.data)

/-- Python's `str.lower()` (character-wise lowering, as for the ASCII
keywords the code searches for). -/
def lowerString (s : String) : String := ⟨s.data.map Char.toLower⟩

/-- Python truthiness of an optional string (`None` and `""` are falsy).
The handlers test fetched JSON fields with `if ... and dataset_id`. -/
def pyTruthy : Option String → Bool
  | none => false
  | some s => s ≠ ""

/-! ## `backend/services/ai_analysis_service.py` -/

/-- The dict returned by profile evaluation.  The LLM is prompted to return a
JSON object with exactly these keys, and `_fallback_evaluation` builds one;
the parsed `json.loads` result of a successful call is modelled as a value of
this type. -/
structure EvalResult where
  profile_type : String
  role_category : String
  seniority_level : String
  industry_match : Bool
  intent_from_comment : String
  persona_fit_score : Int
  reasoning : String
deriving DecidableEq, Repr

/-- `persona_definition`: the dict read with
`persona_definition.get('industries', [])` etc. when building the prompt. -/
structure Persona where
  industries : List String
  job_titles : List String
  seniority : List String
deriving DecidableEq, Repr

/-- `AIAnalysisService._fallback_evaluation` — the rule-based fallback used
when the OpenAI client is missing or the call/parse raised. -/
def _fallback_evaluation (headline : String) : EvalResult :=
  let seniority : String :=
    if ["CEO", "Founder", "President"].any (fun x => strContains headline x) then "C-level"
    else if ["VP", "Vice President"].any (fun x => strContains headline x) then "VP"
    else if strContains headline "Director" then "Director"
    else if strContains headline "Manager" then "Manager"
    else "IC"
  let excluded : Bool :=
    ["student", "recruiter", "intern"].any (fun x => strContains (lowerString headline) x)
  { profile_type :=
      if strContains headline "Company" || strContains headline "Ltd" then "company"
      else "individual"
    role_category := if excluded then "irrelevant" else "influencer"
    seniority_level := seniority
    industry_match := false
    intent_from_comment := "medium"
    persona_fit_score := if excluded then 0 else 50
    reasoning := "Fallback evaluation (AI unavailable)" }

/-- The OpenAI chat-completions call made from `evaluate_profile`, followed by
`json.loads` on its content: given the prompt inputs it either produces a
parsed result or raises (modelled as `Except.error` with the exception
message).  `none` models `self.client is None` (no `OPENAI_API_KEY`). -/
def ProfileClient : Type :=
  String → String → String → Persona → Except String EvalResult

/-- `AIAnalysisService.evaluate_profile`.  The client (when configured) is
called inside `try`; any exception from the call or from parsing its response
falls back to `_fallback_evaluation(headline)`. -/
def evaluate_profile (client : Option ProfileClient)
    (name headline comment_text : String) (persona_definition : Persona) : EvalResult :=
  match client with
  | none => _fallback_evaluation headline
  | some call =>
    match call name headline comment_text persona_definition with
    | Except.ok result => result
    | Except.error _ => _fallback_evaluation headline

/-- The dict returned by `analyze_post_content`.  The not-configured branch
returns a dict without a `summary` key, the exception branch one with
`summary: ""`; the optional field records that difference. -/
structure PostContentResult where
  intent : String
  topics : List String
  relevance_score : Int
  summary : Option String
deriving DecidableEq, Repr

/-- The chat-completions call made from `analyze_post_content` plus
`json.loads`, given `post_text` and `customer_product`. -/
def PostClient : Type := String → String → Except String PostContentResult

/-- `AIAnalysisService.analyze_post_content`. -/
def analyze_post_content (client : Option PostClient)
    (post_text : String) (customer_product : String) : PostContentResult :=
  match client with
  | none => { intent := "unknown", topics := [], relevance_score := 50, summary := none }
  | some call =>
    match call post_text customer_product with
    | Except.ok result => result
    | Except.error _ =>
      { intent := "unknown", topics := [], relevance_score := 50, summary := some "" }

/-! ## Webhook handlers (`backend/api/apify.py`, `backend/api/analysis.py`) -/

/-- The `resource` object of an Apify webhook payload, holding the fields the
handlers read: `resource.get("id")` and `resource.get("defaultDatasetId")`. -/
structure WebhookResource where
  id : Option String
  defaultDatasetId : Option String
deriving DecidableEq, Repr

instance : Inhabited WebhookResource := ⟨⟨none, none⟩⟩

/-- A webhook payload as the handlers read it: `payload.get("eventType")` and
`payload.get("resource", {})` (an absent resource reads as the empty dict,
i.e. both nested fields absent). -/
structure WebhookPayload where
  eventType : Option String
  resource : Option WebhookResource
deriving DecidableEq, Repr

/-- A task handed to `background_tasks.add_task` by one of the two webhook
handlers: `process_apify_dataset(dataset_id, run_id)` from `apify.py`, or
`analysis_service.process_webhook(dataset_id, run_id)` from `analysis.py`. -/
inductive BackgroundTask where
  | process_apify_dataset (dataset_id : String) (run_id : Option String)
  | analysis_process_webhook (dataset_id : String) (run_id : Option String)
deriving DecidableEq, Repr

/-- The JSON body a webhook handler returns. -/
structure WebhookResponse where
  status : String
deriving DecidableEq, Repr

/-- The `defaultDatasetId` field as the handlers fetch it. -/
def datasetField (payload : WebhookPayload) : Option String :=
  (payload.resource.getD default).defaultDatasetId

/-- The `id` field of the resource. -/
def runField (payload : WebhookPayload) : Option String :=
  (payload.resource.getD default).id

/-- The guard `event_type == "ACTOR.RUN.SUCCEEDED" and dataset_id` shared by
both handlers (`dataset_id` tested for Python truthiness). -/
def scheduleGuard (payload : WebhookPayload) : Bool :=
  payload.eventType == some "ACTOR.RUN.SUCCEEDED" && pyTruthy (datasetField payload)

/-- `apify_webhook` (`backend/api/apify.py`): always answers
`{"status": "received"}`; schedules `process_apify_dataset` when the guard
holds.  (`getD ""` is exact: the guard forces the field to be a non-empty
string.) -/
def apify_webhook (payload : WebhookPayload) : WebhookResponse × List BackgroundTask :=
  if scheduleGuard payload then
    (⟨"received"⟩, [BackgroundTask.process_apify_dataset
        ((datasetField payload).getD "") (runField payload)])
  else
    (⟨"received"⟩, [])

/-- `analysis_webhook` (`backend/api/analysis.py`): identical logic, but the
scheduled task is `analysis_service.process_webhook`. -/
def analysis_webhook (payload : WebhookPayload) : WebhookResponse × List BackgroundTask :=
  if scheduleGuard payload then
    (⟨"received"⟩, [BackgroundTask.analysis_process_webhook
        ((datasetField payload).getD "") (runField payload)])
  else
    (⟨"received"⟩, [])

/-- A sequence of deliveries to the apify endpoint.  The handler keeps no
state between requests (no deduplication), so the scheduled tasks are just
the concatenation of each delivery's tasks. -/
def apify_webhook_deliveries (payloads : List WebhookPayload) : List BackgroundTask :=
  payloads.flatMap (fun p => (apify_webhook p).2)

/-! ## `start_analysis` (`backend/api/analysis.py`) -/

/-- The request body of `POST /ingest/analysis/`. -/
structure AnalyzeRequest where
  post_urls : List String
  org_id : String
  persona_id : Option String
deriving DecidableEq, Repr

/-- Outcome of a route handler: a value, or `HTTPException(status_code, detail)`. -/
inductive HttpResult (α : Type) where
  | ok (value : α)
  | httpError (status_code : Nat) (detail : String)
deriving DecidableEq, Repr

/-- The success body of `start_analysis`:
`{"status": "started", "count": len(started_ids), "ids": started_ids}`. -/
structure StartResponse where
  status : String
  count : Nat
  ids : List Nat
deriving DecidableEq, Repr

/-- `uuid.UUID(s)`: parses or raises `ValueError` (the error message).
Modelled as an explicit parameter; UUID values are modelled as `Nat`. -/
def UuidParser : Type := String → Except String Nat

/-- `analysis_service.analyze_posts(post_urls, org_uuid, persona_uuid)`:
returns the started ids or raises.  Modelled as an explicit parameter. -/
def AnalyzePosts : Type := List String → Nat → Option Nat → Except String (List Nat)

/-- `start_analysis`: rejects batches of more than 10 URLs with HTTP 400
before anything else runs; everything inside the subsequent `try` block
(UUID parsing included) surfaces as HTTP 500 with `str(e)` as detail. -/
def start_analysis (parse_uuid : UuidParser) (analyze_posts : AnalyzePosts)
    (request : AnalyzeRequest) : HttpResult StartResponse :=
  if request.post_urls.length > 10 then
    HttpResult.httpError 400 "Max 10 URLs allowed per batch"
  else
    match parse_uuid request.org_id with
    | Except.error e => HttpResult.httpError 500 e
    | Except.ok org_uuid =>
      let persona_parse : Except String (Option Nat) :=
        match request.persona_id with
        | some pid => Except.map some (parse_uuid pid)
        | none => Except.ok none
      match persona_parse with
      | Except.error e => HttpResult.httpError 500 e
      | Except.ok persona_uuid =>
        match analyze_posts request.post_urls org_uuid persona_uuid with
        | Except.error e => HttpResult.httpError 500 e
        | Except.ok started_ids =>
          HttpResult.ok { status := "started", count := started_ids.length, ids := started_ids }

/-! ## `get_analysis_results` (`backend/api/analysis.py`)

The database is modelled as lists of rows; `select ... where ...` becomes a
filter, `order_by(... .desc())` a sort, `limit` a `take`.  UUID columns are
modelled as `Nat` and `datetime` columns as `Nat` timestamps.  The endpoint
also fetches the `Lead` rows for the interactions' `lead_id`s, but that list
is never placed in the response, so the `Lead` table is not modelled. -/

/-- Row of `linkedin_post` (`backend/models/post_analysis.py`), restricted to
the columns the results endpoint reads. -/
structure LinkedInPost where
  id : Nat
  post_url : String
  author_name : Option String
  post_content : Option String
  status : String
  post_intent : Option String
  total_comments : Int
  total_likes : Int
  org_id : Nat
  created_at : Nat
deriving DecidableEq, Repr

/-- Row of `post_interaction` (`backend/models/post_analysis.py`), restricted
to the columns the results endpoint reads. -/
structure PostInteraction where
  id : Nat
  post_id : Nat
  type : String
  actor_name : Option String
  actor_headline : Option String
  relevance_score : Int
  classification : String
  profile_type : Option String
  seniority_level : Option String
  lead_id : Option Nat
deriving DecidableEq, Repr

/-- A concrete scored interaction row, used as input in witnesses. -/
def sampleInteraction : PostInteraction :=
  { id := 1, post_id := 1, type := "COMMENT", actor_name := some "Ada"
    actor_headline := some "VP of Sales", relevance_score := 80
    classification := "high", profile_type := some "individual"
    seniority_level := some "VP", lead_id := some 3 }

/-- The two tables the endpoint queries. -/
structure AnalysisDB where
  posts : List LinkedInPost
  interactions : List PostInteraction
deriving Repr

/-- A concrete post row, used as input in witnesses. -/
def samplePost : LinkedInPost :=
  { id := 1, post_url := "https://linkedin.test/post/1", author_name := some "Bea"
    post_content := some "looking for a CRM", status := "completed"
    post_intent := some "solution_seeking", total_comments := 1, total_likes := 0
    org_id := 1, created_at := 5 }

/-- A concrete database with one post of organization 1 and one interaction
on it, used as input in witnesses. -/
def sampleDB : AnalysisDB :=
  { posts := [samplePost], interactions := [sampleInteraction] }

/-- `ORDER BY linkedin_post.created_at DESC`. -/
def createdDesc (a b : LinkedInPost) : Prop := b.created_at ≤ a.created_at

instance : DecidableRel createdDesc := fun _ _ => Nat.decLe _ _
instance : IsTotal LinkedInPost createdDesc := ⟨fun a b => Nat.le_total b.created_at a.created_at⟩
instance : IsTrans LinkedInPost createdDesc := ⟨fun _ _ _ h h' => Nat.le_trans h' h⟩

/-- `ORDER BY post_interaction.relevance_score DESC`. -/
def scoreDesc (a b : PostInteraction) : Prop := b.relevance_score ≤ a.relevance_score

instance : DecidableRel scoreDesc := fun _ _ => Int.decLe _ _
instance : IsTotal PostInteraction scoreDesc := ⟨fun a b => Int.le_total b.relevance_score a.relevance_score⟩
instance : IsTrans PostInteraction scoreDesc := ⟨fun _ _ _ h h' => Int.le_trans h' h⟩

/-- One element of the `results` list built by the endpoint.  The serialized
`post` dict is kept as the underlying row (the response projects its fields);
`interactions` is the post's interaction rows in response order. -/
structure ResultEntry where
  post : LinkedInPost
  interactions : List PostInteraction
  leads_created : Nat
  high_value_count : Nat
deriving DecidableEq, Repr

/-- The query and aggregation body of `get_analysis_results` for a validated
`limit`: filter posts by `org_id` (and by `status` when truthy — Python
`if status:`), order by `created_at` descending, take `limit`; per post,
its interactions ordered by `relevance_score` descending, plus the
`leads_created` and `high_value_count` tallies. -/
def get_analysis_results (db : AnalysisDB) (org_id : Nat) (limit : Nat)
    (status : Option String) : List ResultEntry :=
  let filtered := db.posts.filter fun p =>
    p.org_id == org_id &&
      (if pyTruthy status then p.status == status.getD "" else true)
  let posts := (List.insertionSort createdDesc filtered).take limit
  posts.map fun post =>
    let interactions :=
      List.insertionSort scoreDesc (db.interactions.filter fun i => i.post_id == post.id)
    { post := post
      interactions := interactions
      leads_created := (interactions.filter fun i => i.lead_id.isSome).length
      high_value_count := (interactions.filter fun i => i.classification == "high").length }

/-- FastAPI's handling of the `limit` query parameter,
`limit: int = Query(20, le=100)`: absent means 20, and a value above 100 is
rejected by validation (HTTP 422) before the handler runs. -/
def validate_limit (limitParam : Option Nat) : Except Nat Nat :=
  let l := limitParam.getD 20
  if l ≤ 100 then Except.ok l else Except.error 422

/-! ## `CampaignRepository.update_status` (`backend/repositories/campaign_repo.py`) -/

/-- Row of `campaign`, restricted to the columns `update_status` touches or
that the frame conditions mention.  `datetime` columns are `Nat` timestamps;
`Option` captures nullable columns (Python `None`, which is falsy in
`if not campaign.started_at`; a stored datetime is always truthy). -/
structure Campaign where
  id : Nat
  org_id : Nat
  status : String
  leads_count : Int
  started_at : Option Nat
  paused_at : Option Nat
  last_resumed_at : Option Nat
  completed_at : Option Nat
  created_at : Nat
  updated_at : Nat
deriving DecidableEq, Repr

/-- The field updates `update_status` applies to the fetched campaign row:
`status` and `updated_at` always, then the status-specific timestamps
(`if not campaign.started_at` is the `isNone` test, a stored datetime being
always truthy).  The several `datetime.utcnow()` calls of one invocation are
modelled as the single instant `now`. -/
def apply_status_update (campaign : Campaign) (status : String) (now : Nat) : Campaign :=
  let c := { campaign with status := status, updated_at := now }
  if status = "active" then
    { c with
      started_at := if c.started_at.isNone then some now else c.started_at
      paused_at := none
      last_resumed_at := some now }
  else if status = "paused" then { c with paused_at := some now }
  else if status = "completed" then { c with completed_at := some now }
  else c

/-- `update_status(campaign_id, status)`: looks the campaign up (modelled as
the first row with that id), returns `None` leaving the table unchanged when
absent, otherwise applies the update and commits the updated row. -/
def update_status (db : List Campaign) (campaign_id : Nat) (status : String)
    (now : Nat) : Option Campaign × List Campaign :=
  match db.find? (fun c => c.id == campaign_id) with
  | none => (none, db)
  | some campaign =>
    let c := apply_status_update campaign status now
    (some c, db.map fun row => if row.id == campaign_id then c else row)

/-! ## Idempotent persistence of a scored interaction -/

/-- Modelled from the spec: the persistence step of the scoring pipeline —
step "(e) upsert into relational tables", which the spec requires to "persist
the result idempotently as scraped data streams in from asynchronous webhook
callbacks".  The `analysis_service` module that performs this step is not
among the provided source files, so it is modelled here from the spec's
words: the stored table keyed by the scraped dataset item's identity, where
processing an item replaces the row already stored under its key and
otherwise appends a new row. -/
def persist_interaction (table : List (String × PostInteraction))
    (key : String) (row : PostInteraction) : List (String × PostInteraction) :=
  if table.any (fun kv => kv.1 == key) then
    table.map fun kv => if kv.1 == key then (key, row) else kv
  else
    table ++ [(key, row)]

/-! ## Theorems -/

/-- C3: `evaluate_profile` never raises (it is a total function of its
inputs); when the OpenAI client is not configured, and likewise when the LLM
call or the parsing of its response raises, it returns exactly the rule-based
result `_fallback_evaluation(headline)`. -/
theorem evaluate_profile_falls_back (name headline comment_text : String)
    (persona_definition : Persona) (call : ProfileClient) (e : String)
    (herr : call name headline comment_text persona_definition = Except.error e) :
    evaluate_profile none name headline comment_text persona_definition =
      _fallback_evaluation headline ∧
    evaluate_profile (some call) name headline comment_text persona_definition =
      _fallback_evaluation headline := by
  refine ⟨rfl, ?_⟩
  simp [evaluate_profile, herr]

/-- Witness for C3 at a concrete input: a client whose call raises. -/
theorem evaluate_profile_falls_back_witness :
    evaluate_profile (some fun _ _ _ _ => Except.error "boom")
        "Ada" "VP of Sales" "interested!" ⟨["SaaS"], ["VP Sales"], ["VP"]⟩ =
      _fallback_evaluation "VP of Sales" :=
  (evaluate_profile_falls_back "Ada" "VP of Sales" "interested!"
    ⟨["SaaS"], ["VP Sales"], ["VP"]⟩ (fun _ _ _ _ => Except.error "boom") "boom" rfl).2

/-- C4: the keyword fallback assigns `seniority_level` by the first match in
priority order (C-level, VP, Director, Manager, IC), and classifies the
profile as `irrelevant` with score 0 when the lowercased headline contains
"student", "recruiter" or "intern", else as `influencer` with score 50. -/
theorem fallback_evaluation_keyword_rules (headline : String) :
    ((_fallback_evaluation headline).seniority_level =
      if strContains headline "CEO" || strContains headline "Founder" ||
          strContains headline "President" then "C-level"
      else if strContains headline "VP" || strContains headline "Vice President" then "VP"
      else if strContains headline "Director" then "Director"
      else if strContains headline "Manager" then "Manager"
      else "IC") ∧
    ((strContains (lowerString headline) "student" ||
        strContains (lowerString headline) "recruiter" ||
        strContains (lowerString headline) "intern") = true →
      (_fallback_evaluation headline).role_category = "irrelevant" ∧
      (_fallback_evaluation headline).persona_fit_score = 0) ∧
    ((strContains (lowerString headline) "student" ||
        strContains (lowerString headline) "recruiter" ||
        strContains (lowerString headline) "intern") = false →
      (_fallback_evaluation headline).role_category = "influencer" ∧
      (_fallback_evaluation headline).persona_fit_score = 50) := by
  refine ⟨?_, ?_, ?_⟩
  · simp [_fallback_evaluation, List.any_cons, List.any_nil, Bool.or_assoc]
  · intro h
    rw [Bool.or_assoc] at h
    simp [_fallback_evaluation, List.any_cons, List.any_nil, h]
  · intro h
    rw [Bool.or_assoc] at h
    simp [_fallback_evaluation, List.any_cons, List.any_nil, h]

/-- Witness for C4 (the second and third conjuncts are conditional):
evaluated at "Student and Manager". -/
theorem fallback_evaluation_keyword_rules_witness :
    (_fallback_evaluation "Student and Manager").seniority_level = "Manager" ∧
    (_fallback_evaluation "Student and Manager").role_category = "irrelevant" ∧
    (_fallback_evaluation "Student and Manager").persona_fit_score = 0 := by
  obtain ⟨h₁, h₂, -⟩ := fallback_evaluation_keyword_rules "Student and Manager"
  obtain ⟨h₃, h₄⟩ := h₂ (by decide)
  refine ⟨?_, h₃, h₄⟩
  rw [h₁]
  decide

/-- C5 (counterexample): it is not the case that, with the AI client not
configured, some two persona definitions make `evaluate_profile` produce
different `persona_fit_score` values — the fallback ignores the persona. -/
theorem evaluate_profile_persona_blind :
    ¬ ∃ (name headline comment_text : String) (p₁ p₂ : Persona),
      (evaluate_profile none name headline comment_text p₁).persona_fit_score ≠
        (evaluate_profile none name headline comment_text p₂).persona_fit_score := by
  rintro ⟨_, _, _, _, _, hne⟩
  exact hne rfl

/-- C5 (amended): with the AI client not configured, the result of
`evaluate_profile` is independent of `persona_definition`: the persona only
influences the score through the prompt of a configured LLM call. -/
theorem evaluate_profile_persona_independent_without_client
    (name headline comment_text : String) (p₁ p₂ : Persona) :
    evaluate_profile none name headline comment_text p₁ =
      evaluate_profile none name headline comment_text p₂ := rfl

/-- C6: `analyze_post_content` never raises (it is a total function of its
inputs); when the client is not configured, and when the call or parse
raises, the result has intent "unknown", empty topics and relevance score
50. -/
theorem analyze_post_content_failure_defaults (post_text customer_product : String)
    (call : PostClient) (e : String)
    (herr : call post_text customer_product = Except.error e) :
    ((analyze_post_content none post_text customer_product).intent = "unknown" ∧
     (analyze_post_content none post_text customer_product).topics = [] ∧
     (analyze_post_content none post_text customer_product).relevance_score = 50) ∧
    ((analyze_post_content (some call) post_text customer_product).intent = "unknown" ∧
     (analyze_post_content (some call) post_text customer_product).topics = [] ∧
     (analyze_post_content (some call) post_text customer_product).relevance_score = 50) := by
  refine ⟨⟨rfl, rfl, rfl⟩, ?_⟩
  simp [analyze_post_content, herr]

/-- Witness for C6 at a concrete input: a client whose call raises. -/
theorem analyze_post_content_failure_defaults_witness :
    (analyze_post_content (some fun _ _ => Except.error "timeout")
        "Looking for a CRM" "CRM software").relevance_score = 50 :=
  (analyze_post_content_failure_defaults "Looking for a CRM" "CRM software"
    (fun _ _ => Except.error "timeout") "timeout" rfl).2.2.2

/-- C2: every payload delivered to the apify or analysis webhook endpoint is
answered with `{"status": "received"}`; a background fetch is scheduled iff
`eventType = "ACTOR.RUN.SUCCEEDED"` and `resource.defaultDatasetId` is
present (as a dataset id, i.e. a non-empty string — the guard tests Python
truthiness); and, there being no deduplication, delivering the same
successful payload twice schedules two background fetches. -/
theorem webhook_received_and_schedules_iff (payload : WebhookPayload)
    (hwf : datasetField payload ≠ some "") :
    (apify_webhook payload).1 = ⟨"received"⟩ ∧
    (analysis_webhook payload).1 = ⟨"received"⟩ ∧
    ((apify_webhook payload).2 ≠ [] ↔
      payload.eventType = some "ACTOR.RUN.SUCCEEDED" ∧ (datasetField payload).isSome) ∧
    ((analysis_webhook payload).2 ≠ [] ↔
      payload.eventType = some "ACTOR.RUN.SUCCEEDED" ∧ (datasetField payload).isSome) ∧
    (payload.eventType = some "ACTOR.RUN.SUCCEEDED" ∧ (datasetField payload).isSome →
      (apify_webhook_deliveries [payload, payload]).length = 2) := by
  have hps : pyTruthy (datasetField payload) = (datasetField payload).isSome := by
    cases hd : datasetField payload with
    | none => rfl
    | some s =>
      have hs : s ≠ "" := fun h => hwf (by rw [hd, h])
      simp [pyTruthy, hs]
  have hguard : scheduleGuard payload = true ↔
      (payload.eventType = some "ACTOR.RUN.SUCCEEDED" ∧ (datasetField payload).isSome) := by
    simp [scheduleGuard, hps]
  have happ : (apify_webhook payload).2 ≠ [] ↔ scheduleGuard payload = true := by
    cases hg : scheduleGuard payload <;> simp [apify_webhook, hg]
  have hana : (analysis_webhook payload).2 ≠ [] ↔ scheduleGuard payload = true := by
    cases hg : scheduleGuard payload <;> simp [analysis_webhook, hg]
  refine ⟨?_, ?_, happ.trans hguard, hana.trans hguard, ?_⟩
  · unfold apify_webhook
    split <;> rfl
  · unfold analysis_webhook
    split <;> rfl
  · intro hc
    have hg := hguard.mpr hc
    simp [apify_webhook_deliveries, apify_webhook, hg]

/-- Witness for C2: a concrete successful payload with a dataset id. -/
theorem webhook_received_and_schedules_iff_witness :
    (apify_webhook ⟨some "ACTOR.RUN.SUCCEEDED", some ⟨some "run1", some "ds1"⟩⟩).1 =
      ⟨"received"⟩ ∧
    (apify_webhook_deliveries
      [⟨some "ACTOR.RUN.SUCCEEDED", some ⟨some "run1", some "ds1"⟩⟩,
       ⟨some "ACTOR.RUN.SUCCEEDED", some ⟨some "run1", some "ds1"⟩⟩]).length = 2 := by
  obtain ⟨h₁, -, -, -, h₅⟩ := webhook_received_and_schedules_iff
    ⟨some "ACTOR.RUN.SUCCEEDED", some ⟨some "run1", some "ds1"⟩⟩ (by decide)
  exact ⟨h₁, h₅ (by constructor <;> rfl)⟩

/-- C8: a batch of more than 10 URLs is rejected with HTTP 400 and detail
"Max 10 URLs allowed per batch" before any analysis starts (the result does
not depend on the analysis service at all), while a failure after that check
— here, an `org_id` that `uuid.UUID` rejects — surfaces as HTTP 500. -/
theorem start_analysis_batch_limit (parse_uuid : UuidParser)
    (analyze₁ analyze₂ : AnalyzePosts) (request : AnalyzeRequest) (e : String) :
    (request.post_urls.length > 10 →
      start_analysis parse_uuid analyze₁ request =
        HttpResult.httpError 400 "Max 10 URLs allowed per batch" ∧
      start_analysis parse_uuid analyze₁ request =
        start_analysis parse_uuid analyze₂ request) ∧
    (¬ request.post_urls.length > 10 →
      parse_uuid request.org_id = Except.error e →
      start_analysis parse_uuid analyze₁ request = HttpResult.httpError 500 e) := by
  constructor
  · intro hlen
    constructor <;> simp [start_analysis, hlen]
  · intro hlen herr
    simp [start_analysis, hlen, herr]

/-- Witness for C8: an 11-URL batch is rejected with 400, and a malformed
`org_id` in a small batch yields 500. -/
theorem start_analysis_batch_limit_witness :
    start_analysis (fun s => if s = "good" then Except.ok 7 else Except.error "badly formed UUID")
        (fun urls _ _ => Except.ok (List.replicate urls.length 1))
        ⟨["u1", "u2", "u3", "u4", "u5", "u6", "u7", "u8", "u9", "u10", "u11"], "good", none⟩ =
      HttpResult.httpError 400 "Max 10 URLs allowed per batch" ∧
    start_analysis (fun s => if s = "good" then Except.ok 7 else Except.error "badly formed UUID")
        (fun urls _ _ => Except.ok (List.replicate urls.length 1))
        ⟨["u1"], "not-a-uuid", none⟩ =
      HttpResult.httpError 500 "badly formed UUID" := by
  constructor
  · exact ((start_analysis_batch_limit
      (fun s => if s = "good" then Except.ok 7 else Except.error "badly formed UUID")
      (fun urls _ _ => Except.ok (List.replicate urls.length 1))
      (fun urls _ _ => Except.ok (List.replicate urls.length 1))
      ⟨["u1", "u2", "u3", "u4", "u5", "u6", "u7", "u8", "u9", "u10", "u11"], "good", none⟩
      "badly formed UUID").1 (by decide)).1
  · exact (start_analysis_batch_limit
      (fun s => if s = "good" then Except.ok 7 else Except.error "badly formed UUID")
      (fun urls _ _ => Except.ok (List.replicate urls.length 1))
      (fun urls _ _ => Except.ok (List.replicate urls.length 1))
      ⟨["u1"], "not-a-uuid", none⟩
      "badly formed UUID").2 (by decide) (by simp)

/-- C10: `update_status` returns `None` and changes no state when the
campaign is absent; otherwise it preserves `started_at` once set (assigning
it only when the new status is "active" and it was unset), "active" clears
`paused_at` and sets `last_resumed_at`, "paused" sets `paused_at`,
"completed" sets `completed_at`, and any other status changes only the
`status` and `updated_at` fields. -/
theorem update_status_transitions (db : List Campaign) (campaign_id : Nat)
    (status : String) (now : Nat) :
    (db.find? (fun c => c.id == campaign_id) = none →
      update_status db campaign_id status now = (none, db)) ∧
    (∀ campaign, db.find? (fun c => c.id == campaign_id) = some campaign →
      (update_status db campaign_id status now).1 =
        some (apply_status_update campaign status now) ∧
      ((apply_status_update campaign status now).status = status ∧
       (apply_status_update campaign status now).updated_at = now ∧
       (∀ t, campaign.started_at = some t →
         (apply_status_update campaign status now).started_at = some t) ∧
       (¬ (status = "active" ∧ campaign.started_at = none) →
         (apply_status_update campaign status now).started_at = campaign.started_at) ∧
       (status = "active" → campaign.started_at = none →
         (apply_status_update campaign status now).started_at = some now) ∧
       (status = "active" →
         (apply_status_update campaign status now).paused_at = none ∧
         (apply_status_update campaign status now).last_resumed_at = some now ∧
         (apply_status_update campaign status now).completed_at = campaign.completed_at) ∧
       (status = "paused" →
         (apply_status_update campaign status now).paused_at = some now ∧
         (apply_status_update campaign status now).started_at = campaign.started_at ∧
         (apply_status_update campaign status now).last_resumed_at = campaign.last_resumed_at ∧
         (apply_status_update campaign status now).completed_at = campaign.completed_at) ∧
       (status = "completed" →
         (apply_status_update campaign status now).completed_at = some now ∧
         (apply_status_update campaign status now).started_at = campaign.started_at ∧
         (apply_status_update campaign status now).paused_at = campaign.paused_at ∧
         (apply_status_update campaign status now).last_resumed_at = campaign.last_resumed_at) ∧
       (status ≠ "active" → status ≠ "paused" → status ≠ "completed" →
         apply_status_update campaign status now =
           { campaign with status := status, updated_at := now }))) := by
  constructor
  · intro hnone
    simp [update_status, hnone]
  · intro campaign hfind
    refine ⟨by simp [update_status, hfind], ?_⟩
    by_cases ha : status = "active"
    · subst ha
      cases hst : campaign.started_at with
      | none => simp [apply_status_update, hst]
      | some t => simp [apply_status_update, hst]
    · by_cases hp : status = "paused"
      · subst hp
        simp [apply_status_update]
      · by_cases hc : status = "completed"
        · subst hc
          simp [apply_status_update]
        · simp [apply_status_update, ha, hp, hc]

/-- Witness for C10: a one-row table; pausing keeps the old `started_at`. -/
theorem update_status_transitions_witness :
    (update_status [] 1 "paused" 99 = (none, []) ∧
      (update_status
          [⟨1, 2, "active", 0, some 10, none, some 10, none, 5, 10⟩]
          1 "paused" 99).1 =
        some (apply_status_update
          ⟨1, 2, "active", 0, some 10, none, some 10, none, 5, 10⟩ "paused" 99) ∧
      (apply_status_update
          ⟨1, 2, "active", 0, some 10, none, some 10, none, 5, 10⟩ "paused" 99).started_at =
        some 10) := by
  obtain ⟨h₁, h₂⟩ := update_status_transitions [] 1 "paused" 99
  obtain ⟨-, h₄⟩ := update_status_transitions
    [⟨1, 2, "active", 0, some 10, none, some 10, none, 5, 10⟩] 1 "paused" 99
  obtain ⟨h₅, -, -, h₆, -⟩ :=
    h₄ ⟨1, 2, "active", 0, some 10, none, some 10, none, 5, 10⟩ (by decide)
  exact ⟨h₁ rfl, h₅, h₆ 10 rfl⟩

/-- The update applied by `persist_interaction` to a row already under the
key is pointwise idempotent. -/
theorem persist_replace_pointwise (key : String) (row : PostInteraction)
    (kv : String × PostInteraction) :
    (let f : String × PostInteraction → String × PostInteraction :=
      fun kv => if kv.1 == key then (key, row) else kv
     f (f kv) = f kv ∧ ((fun kv => kv.1 == key) (f kv) = (fun kv => kv.1 == key) kv)) := by
  by_cases h : kv.1 == key <;> simp [h]

/-- C1: processing the same scraped interaction more than once leaves the
stored table the same as processing it once, and (starting from a table
without duplicate rows for the key) exactly one row is stored under the
item's key — the persistence step is an upsert. -/
theorem persist_interaction_idempotent (table : List (String × PostInteraction))
    (key : String) (row : PostInteraction) :
    persist_interaction (persist_interaction table key row) key row =
      persist_interaction table key row ∧
    (table.countP (fun kv => kv.1 == key) ≤ 1 →
      (persist_interaction table key row).countP (fun kv => kv.1 == key) = 1) := by
  cases hany : table.any (fun kv => kv.1 == key) with
  | true =>
    have hmem := List.any_eq_true.mp hany
    obtain ⟨kv₀, hkv₀, hp₀⟩ := hmem
    have hany' : (table.map fun kv =>
        if kv.1 == key then (key, row) else kv).any (fun kv => kv.1 == key) = true := by
      refine List.any_eq_true.mpr ⟨(key, row), ?_, by simp⟩
      exact List.mem_map.mpr ⟨kv₀, hkv₀, by simp [hp₀]⟩
    have hcount : (table.map fun kv =>
        if kv.1 == key then (key, row) else kv).countP (fun kv => kv.1 == key) =
        table.countP (fun kv => kv.1 == key) := by
      rw [List.countP_map]
      exact List.countP_congr fun kv _ => by
        simpa using congrArg (· = true) (persist_replace_pointwise key row kv).2
    constructor
    · simp only [persist_interaction, hany, if_true, hany', List.map_map]
      exact List.map_congr_left fun kv _ => (persist_replace_pointwise key row kv).1
    · intro hle
      have hpos : 0 < table.countP (fun kv => kv.1 == key) :=
        List.countP_pos_iff.mpr ⟨kv₀, hkv₀, hp₀⟩
      simp only [persist_interaction, hany, if_true, hcount]
      omega
  | false =>
    have hnone : ∀ kv ∈ table, ¬ (kv.1 == key) = true := List.any_eq_false.mp hany
    have hmap : (table.map fun kv => if kv.1 == key then (key, row) else kv) = table := by
      have := List.map_congr_left (l := table)
        (f := fun kv : String × PostInteraction => if kv.1 == key then (key, row) else kv)
        (g := id) (fun kv hkv => by simp [hnone kv hkv])
      simpa using this
    have hany' : (table ++ [(key, row)]).any (fun kv => kv.1 == key) = true := by
      simp [List.any_append]
    constructor
    · simp only [persist_interaction, hany, if_false, Bool.false_eq_true, hany', if_true]
      rw [List.map_append, hmap]
      simp
    · intro _
      have hz : table.countP (fun kv => kv.1 == key) = 0 :=
        List.countP_eq_zero.mpr hnone
      simp only [persist_interaction, hany, Bool.false_eq_true, if_false,
        List.countP_append, hz]
      simp [List.countP_cons]

/-- Witness for C1: persisting the same scored row twice into a one-row
table stores it once. -/
theorem persist_interaction_idempotent_witness :
    (persist_interaction
        (persist_interaction [] "urn:item1" sampleInteraction) "urn:item1" sampleInteraction =
      persist_interaction [] "urn:item1" sampleInteraction) ∧
    (persist_interaction [] "urn:item1" sampleInteraction).countP
        (fun kv => kv.1 == "urn:item1") = 1 := by
  obtain ⟨h₁, h₂⟩ := persist_interaction_idempotent [] "urn:item1" sampleInteraction
  exact ⟨h₁, h₂ (by decide)⟩

/-- C7: every post in the results of `get_analysis_results` has the
requested `org_id`; when the optional status filter is supplied (a non-empty
string — Python `if status:`) every returned post has exactly that status;
and every interaction listed under a post has that post's id. -/
theorem get_analysis_results_scoped (db : AnalysisDB) (org_id : Nat) (limit : Nat)
    (status : Option String) (entry : ResultEntry)
    (hentry : entry ∈ get_analysis_results db org_id limit status) :
    entry.post.org_id = org_id ∧
    (∀ s, status = some s → s ≠ "" → entry.post.status = s) ∧
    (∀ i ∈ entry.interactions, i.post_id = entry.post.id) := by
  simp only [get_analysis_results] at hentry
  obtain ⟨post, hpost, hfp⟩ := List.mem_map.mp hentry
  have hpost' := List.take_subset _ _ hpost
  have hmem : post ∈ db.posts.filter (fun p =>
      p.org_id == org_id &&
        (if pyTruthy status then p.status == status.getD "" else true)) :=
    ((List.perm_insertionSort createdDesc _).mem_iff).mp hpost'
  obtain ⟨-, hcond⟩ := List.mem_filter.mp hmem
  rw [Bool.and_eq_true] at hcond
  obtain ⟨horg, hstat⟩ := hcond
  subst hfp
  refine ⟨by simpa using horg, ?_, ?_⟩
  · intro s hs hneq
    rw [hs] at hstat
    simpa [pyTruthy, hneq] using hstat
  · intro i hi
    have hi' : i ∈ db.interactions.filter (fun j => j.post_id == post.id) :=
      ((List.perm_insertionSort scoreDesc _).mem_iff).mp hi
    simpa using (List.mem_filter.mp hi').2

/-- Witness for C7 on the sample database with the status filter set. -/
theorem get_analysis_results_scoped_witness :
    ({ post := samplePost, interactions := [sampleInteraction],
       leads_created := 1, high_value_count := 1 } : ResultEntry).post.org_id = 1 ∧
    ({ post := samplePost, interactions := [sampleInteraction],
       leads_created := 1, high_value_count := 1 } : ResultEntry).post.status = "completed" := by
  obtain ⟨h₁, h₂, -⟩ := get_analysis_results_scoped sampleDB 1 20 (some "completed")
    { post := samplePost, interactions := [sampleInteraction],
      leads_created := 1, high_value_count := 1 }
    (by decide)
  exact ⟨h₁, h₂ "completed" rfl (by decide)⟩

/-- C9: `get_analysis_results` returns at most `limit` posts, where the
validated `limit` defaults to 20 and may not exceed 100, ordered by
`created_at` descending; each entry's interactions are ordered by
`relevance_score` descending, `leads_created` counts the post's interactions
with a non-null `lead_id`, and `high_value_count` those with classification
"high". -/
theorem get_analysis_results_limit_order_counts (db : AnalysisDB) (org_id : Nat)
    (limitParam : Option Nat) (status : Option String) (l : Nat)
    (hl : validate_limit limitParam = Except.ok l) :
    l = limitParam.getD 20 ∧ l ≤ 100 ∧
    (get_analysis_results db org_id l status).length ≤ l ∧
    List.Sorted createdDesc
      ((get_analysis_results db org_id l status).map ResultEntry.post) ∧
    (∀ entry ∈ get_analysis_results db org_id l status,
      List.Sorted scoreDesc entry.interactions ∧
      entry.leads_created = (db.interactions.filter
        (fun i => i.post_id == entry.post.id && i.lead_id.isSome)).length ∧
      entry.high_value_count = (db.interactions.filter
        (fun i => i.post_id == entry.post.id && (i.classification == "high"))).length) := by
  have hval : l = limitParam.getD 20 ∧ l ≤ 100 := by
    by_cases h : limitParam.getD 20 ≤ 100
    · simp only [validate_limit, h, if_pos] at hl
      cases hl
      exact ⟨rfl, h⟩
    · simp [validate_limit, h] at hl
  refine ⟨hval.1, hval.2, ?_, ?_, ?_⟩
  · simp only [get_analysis_results, List.length_map]
    exact List.length_take_le _ _
  · simp only [get_analysis_results, List.map_map]
    rw [show (ResultEntry.post ∘ fun post =>
        ({ post := post
           interactions := List.insertionSort scoreDesc
             (db.interactions.filter fun i => i.post_id == post.id)
           leads_created := ((List.insertionSort scoreDesc
             (db.interactions.filter fun i => i.post_id == post.id)).filter
               fun i => i.lead_id.isSome).length
           high_value_count := ((List.insertionSort scoreDesc
             (db.interactions.filter fun i => i.post_id == post.id)).filter
               fun i => i.classification == "high").length } : ResultEntry)) = id
      from funext fun a => rfl]
    rw [List.map_id]
    exact List.Pairwise.sublist (List.take_sublist _ _)
      (List.sorted_insertionSort createdDesc _)
  · intro entry hentry
    simp only [get_analysis_results] at hentry
    obtain ⟨post, hpost, hfp⟩ := List.mem_map.mp hentry
    have hperm := List.perm_insertionSort scoreDesc
      (db.interactions.filter fun i => i.post_id == post.id)
    subst hfp
    refine ⟨List.sorted_insertionSort scoreDesc _, ?_, ?_⟩
    · show ((List.insertionSort scoreDesc _).filter fun i => i.lead_id.isSome).length = _
      rw [← List.countP_eq_length_filter, ← List.countP_eq_length_filter,
        hperm.countP_eq, List.countP_filter]
      exact List.countP_congr fun i _ => by
        cases hpi : i.post_id == post.id <;> cases hld : i.lead_id.isSome <;>
          simp [hpi, hld]
    · show ((List.insertionSort scoreDesc _).filter
        fun i => i.classification == "high").length = _
      rw [← List.countP_eq_length_filter, ← List.countP_eq_length_filter,
        hperm.countP_eq, List.countP_filter]
      exact List.countP_congr fun i _ => by
        cases hpi : i.post_id == post.id <;> cases hcl : i.classification == "high" <;>
          simp [hpi, hcl]

/-- Witness for C9: on the sample database with the limit parameter absent,
the validated limit is 20 and at most 20 posts come back. -/
theorem get_analysis_results_limit_order_counts_witness :
    (get_analysis_results sampleDB 1 20 none).length ≤ 20 := by
  obtain ⟨-, -, h₃, -⟩ :=
    get_analysis_results_limit_order_counts sampleDB 1 none none 20 rfl
  exact h₃

end LeadGenius
